import Mathlib

/-!
Shallow embedding of the Ladybug Runner game (`src/main.rs`), an endless
side-scrolling runner.  `f32` values are modelled as rationals; the
per-frame loop body becomes an explicit step function on a `Game` record;
the two pieces supplied by external libraries (macroquad's
`Rect::overlaps` and `rand::gen_range`) are modelled from the spec, as
noted on their definitions.  Drawing and input polling are out of scope:
the inputs a frame consumes are bundled in `FrameInput`.
-/

namespace LadybugRunner

/-- Downward acceleration applied every frame (`GRAVITY`). -/
def GRAVITY : ℚ := 1800

/-- Initial vertical velocity when jumping (`JUMP_VEL`). -/
def JUMP_VEL : ℚ := -800

/-- Ground band height (`GROUND_H`). -/
def GROUND_H : ℚ := 80

/-- Player visual width (`PLAYER_W`). -/
def PLAYER_W : ℚ := 60

/-- Player visual height (`PLAYER_H`). -/
def PLAYER_H : ℚ := 60

/-- Starting horizontal world/obstacle speed (`BASE_SPEED`). -/
def BASE_SPEED : ℚ := 30

/-- Base acceleration applied to speed over time while playing (`SPEED_GROWTH`). -/
def SPEED_GROWTH : ℚ := 8

/-- Difficulty ceiling (`MAX_SPEED`). -/
def MAX_SPEED : ℚ := 140

/-- Minimum seconds between spawns (`SPAWN_MIN`). -/
def SPAWN_MIN : ℚ := 9/10

/-- Maximum seconds between spawns (`SPAWN_MAX`). -/
def SPAWN_MAX : ℚ := 18/10

/-- Two-dimensional vector (`macroquad::math::Vec2` as used by the game). -/
structure Vec2 where
  x : ℚ
  y : ℚ
deriving DecidableEq, Repr

/-- Axis-aligned rectangle (`macroquad::math::Rect` as used by the game). -/
structure Rect where
  x : ℚ
  y : ℚ
  w : ℚ
  h : ℚ
deriving DecidableEq, Repr

/-- Modelled from the spec: `Rect::overlaps` lives in the macroquad
dependency, whose code is not part of this repository.  The spec
prescribes the standard AABB test with touching edges treated as
non-overlapping, i.e. strict inequalities on both axes. -/
def Rect.overlaps (a b : Rect) : Bool :=
  (a.x < b.x + b.w) && (b.x < a.x + a.w) && (a.y < b.y + b.h) && (b.y < a.y + a.h)

/-- Modelled from the spec: `rand::gen_range(lo, hi)` is macroquad's
uniform-random-in-range primitive, not part of this repository.  It is
modelled as a deterministic function of an externally supplied unit draw
`u`: for `u ∈ [0,1)` the result `lo + (hi - lo) * u` ranges uniformly
over `[lo, hi)`. -/
def genRange (lo hi u : ℚ) : ℚ := lo + (hi - lo) * u

/-- High-level game state machine (`enum State`). -/
inductive State where
  | Menu : State
  | Playing : State
  | GameOver : State
deriving DecidableEq, Repr

/-- Player avatar (`struct Player`). -/
structure Player where
  pos : Vec2
  vel : Vec2
  on_ground : Bool
deriving DecidableEq, Repr

/-- `Player::new`: positioned a bit from the left side and above the ground. -/
def Player.new (screen_w ground_y : ℚ) : Player :=
  { pos := ⟨screen_w * (2/10), ground_y - PLAYER_H⟩
    vel := ⟨0, 0⟩
    on_ground := true }

/-- `Player::rect`: slightly shrunken collision rectangle. -/
def Player.rect (p : Player) : Rect :=
  { x := p.pos.x + 8, y := p.pos.y + 8, w := PLAYER_W - 16, h := PLAYER_H - 16 }

/-- `Player::update`: jump handling, gravity integration, ground clamp. -/
def Player.update (p : Player) (dt ground_y : ℚ) (jump_pressed : Bool) : Player :=
  let p1 : Player :=
    if jump_pressed && p.on_ground then
      { p with vel := ⟨p.vel.x, JUMP_VEL⟩, on_ground := false }
    else p
  let vy : ℚ := p1.vel.y + GRAVITY * dt
  let py : ℚ := p1.pos.y + vy * dt
  if py + PLAYER_H ≥ ground_y then
    { pos := ⟨p1.pos.x, ground_y - PLAYER_H⟩, vel := ⟨p1.vel.x, 0⟩, on_ground := true }
  else
    { pos := ⟨p1.pos.x, py⟩, vel := ⟨p1.vel.x, vy⟩, on_ground := p1.on_ground }

/-- Obstacle entity (`struct Obstacle`). -/
structure Obstacle where
  pos : Vec2
  size : Vec2
  speed : ℚ
deriving DecidableEq, Repr

/-- `Obstacle::new`: randomized width/height anchored on ground.  The two
`rand::gen_range` draws are modelled by the unit draws `uW`, `uH`
(see `genRange`). -/
def Obstacle.new (x ground_y speed uW uH : ℚ) : Obstacle :=
  let w := genRange 40 70 uW
  let h := genRange 50 120 uH
  { pos := ⟨x, ground_y - h⟩, size := ⟨w, h⟩, speed := speed }

/-- `Obstacle::rect`: collision rectangle, slightly inset. -/
def Obstacle.rect (o : Obstacle) : Rect :=
  { x := o.pos.x + 4, y := o.pos.y + 4, w := o.size.x - 8, h := o.size.y - 8 }

/-- `Obstacle::update`: move left according to the obstacle's own speed. -/
def Obstacle.update (o : Obstacle) (dt : ℚ) : Obstacle :=
  { o with pos := ⟨o.pos.x - o.speed * dt, o.pos.y⟩ }

/-- `Obstacle::offscreen`: completely left of the screen (with buffer). -/
def Obstacle.offscreen (o : Obstacle) : Bool :=
  o.pos.x + o.size.x < -10

/-- The mutable state of `main`'s loop. -/
structure Game where
  state : State
  score : ℚ
  hi_score : ℚ
  spawn_t : ℚ
  next_spawn : ℚ
  speed : ℚ
  obstacles : List Obstacle
  player : Option Player
deriving DecidableEq, Repr

/-- What the environment supplies to one iteration of the loop: frame
time, screen size, the unified jump signal, the M key (read in the
GameOver branch), and the unit draws consumed by any `rand::gen_range`
calls this frame. -/
structure FrameInput where
  dt : ℚ
  sw : ℚ
  sh : ℚ
  jump_pressed : Bool
  m_pressed : Bool
  uSpawn : ℚ
  uW : ℚ
  uH : ℚ
deriving DecidableEq, Repr

/-- `ground_y = screen_height() - GROUND_H`. -/
def groundY (sh : ℚ) : ℚ := sh - GROUND_H

/-- Initial loop state: `state = Menu`, zero score and high score, speed
at `BASE_SPEED`, no obstacles, no player, and the first
`next_spawn = rand::gen_range(SPAWN_MIN, SPAWN_MAX)` modelled by the
unit draw `u0`. -/
def initGame (u0 : ℚ) : Game :=
  { state := State.Menu
    score := 0
    hi_score := 0
    spawn_t := 0
    next_spawn := genRange SPAWN_MIN SPAWN_MAX u0
    speed := BASE_SPEED
    obstacles := []
    player := none }

/-- The `State::Menu` branch of the loop. -/
def menuStep (g : Game) (inp : FrameInput) : Game :=
  if inp.jump_pressed then
    { g with
      score := 0
      speed := BASE_SPEED
      obstacles := []
      spawn_t := 0
      next_spawn := genRange SPAWN_MIN SPAWN_MAX inp.uSpawn
      player := some (Player.new inp.sw (groundY inp.sh))
      state := State.Playing }
  else g

/-- Difficulty scaling in the `State::Playing` branch:
`speed = (speed + SPEED_GROWTH * dt).min(MAX_SPEED)`. -/
def Game.speedAfter (g : Game) (dt : ℚ) : ℚ :=
  min (g.speed + SPEED_GROWTH * dt) MAX_SPEED

/-- Spawn-timer logic of the `State::Playing` branch: returns the
obstacle list after a possible spawn, the new `spawn_t` and the new
`next_spawn`.  The spawned obstacle uses the already-updated speed, as
in the source, and the re-roll of `next_spawn` uses the clamped lower
bound `SPAWN_MIN.max(0.5)`. -/
def Game.spawnResult (g : Game) (inp : FrameInput) : List Obstacle × ℚ × ℚ :=
  let t := g.spawn_t + inp.dt
  if t ≥ g.next_spawn then
    (g.obstacles ++ [Obstacle.new (inp.sw + 40) (groundY inp.sh) (g.speedAfter inp.dt) inp.uW inp.uH],
     0,
     genRange (max SPAWN_MIN (1/2)) SPAWN_MAX inp.uSpawn)
  else
    (g.obstacles, t, g.next_spawn)

/-- The `State::Playing` branch of the loop.  `none` models the
`expect("Player inexistente")` panic when no player exists.  Order as in
the source: player physics, speed growth, spawn timer, obstacle
update + collision scan over every live obstacle, eviction of off-screen
obstacles, score accrual, and finally the high-score update and
transition to `GameOver` when a collision was registered. -/
def playingStep (g : Game) (inp : FrameInput) : Option Game :=
  match g.player with
  | none => none
  | some pl =>
    let pl1 := pl.update inp.dt (groundY inp.sh) inp.jump_pressed
    let s1 := g.speedAfter inp.dt
    let r := g.spawnResult inp
    let obs1 := r.1.map (fun o => o.update inp.dt)
    let alive := !(obs1.any (fun o => o.rect.overlaps pl1.rect))
    let obs2 := obs1.filter (fun o => !o.offscreen)
    let score1 := g.score + s1 * inp.dt * (1/10)
    if alive then
      some { g with
        player := some pl1
        speed := s1
        spawn_t := r.2.1
        next_spawn := r.2.2
        obstacles := obs2
        score := score1 }
    else
      some { g with
        player := some pl1
        speed := s1
        spawn_t := r.2.1
        next_spawn := r.2.2
        obstacles := obs2
        score := score1
        hi_score := if score1 > g.hi_score then score1 else g.hi_score
        state := State.GameOver }

/-- The `State::GameOver` branch of the loop: `M` returns to the menu
with no data reset; otherwise a jump signal restarts a fresh run
(identical reset to the menu transition). -/
def gameOverStep (g : Game) (inp : FrameInput) : Game :=
  if inp.m_pressed then
    { g with state := State.Menu }
  else if inp.jump_pressed then
    { g with
      score := 0
      speed := BASE_SPEED
      obstacles := []
      spawn_t := 0
      next_spawn := genRange SPAWN_MIN SPAWN_MAX inp.uSpawn
      player := some (Player.new inp.sw (groundY inp.sh))
      state := State.Playing }
  else g

/-- One full iteration of the loop body: dispatch on the current state. -/
def frameStep (g : Game) (inp : FrameInput) : Option Game :=
  match g.state with
  | State.Menu => some (menuStep g inp)
  | State.Playing => playingStep g inp
  | State.GameOver => some (gameOverStep g inp)

/-- Run a sequence of frames; `none` as soon as one frame panics. -/
def runFrames (g : Game) : List FrameInput → Option Game
  | [] => some g
  | i :: is =>
    match frameStep g i with
    | none => none
    | some g1 => runFrames g1 is

/-- Consistency of the grounded flag with the current ground line: a
grounded player has its feet exactly on the ground and no vertical
velocity.  `Player::new` establishes it and `Player::update` preserves
it as long as `ground_y` does not change between frames. -/
def PlayerGroundInv (p : Player) (gy : ℚ) : Prop :=
  p.on_ground = true → p.pos.y + PLAYER_H = gy ∧ p.vel.y = 0

/-! Concrete fixtures used to evaluate the model on explicit inputs
(an 800 × 600 screen, so `ground_y = 520`). -/

/-- A player standing on the ground of an 800 × 600 screen;
equal to `Player.new 800 520`. -/
def scenPlayer : Player := ⟨⟨160, 460⟩, ⟨0, 0⟩, true⟩

/-- An obstacle placed right on top of `scenPlayer`. -/
def scenObstacle : Obstacle := ⟨⟨160, 460⟩, ⟨60, 60⟩, 30⟩

/-- A mid-run `Playing` state with score 10 and high score 5 whose only
obstacle overlaps the player. -/
def scenG : Game :=
  ⟨State.Playing, 10, 5, 0, 1, 30, [scenObstacle], some scenPlayer⟩

/-- The state one zero-length frame after `scenG`: the collision has
been registered, the high score raised to 10. -/
def scenGOver : Game :=
  ⟨State.GameOver, 10, 10, 0, 1, 30, [scenObstacle], some scenPlayer⟩

/-- `scenGOver` after pressing M: back in the menu with no data reset. -/
def scenGMenu : Game :=
  ⟨State.Menu, 10, 10, 0, 1, 30, [scenObstacle], some scenPlayer⟩

/-- `scenGMenu` after a jump signal: a fresh run, high score kept. -/
def scenGRestart : Game :=
  ⟨State.Playing, 0, 10, 0, 9/10, 30, [], some scenPlayer⟩

/-- A zero-length frame with no input. -/
def scenInpTick : FrameInput := ⟨0, 800, 600, false, false, 0, 0, 0⟩

/-- A zero-length frame with only the M key pressed. -/
def scenInpMenu : FrameInput := ⟨0, 800, 600, false, true, 0, 0, 0⟩

/-- A zero-length frame with only the jump signal raised. -/
def scenInpJump : FrameInput := ⟨0, 800, 600, true, false, 0, 0, 0⟩

/-- A zero-length frame with the jump signal and the M key both raised. -/
def scenInpBoth : FrameInput := ⟨0, 800, 600, true, true, 0, 0, 0⟩

/-- First counterexample frame: starting a run from the menu on an
800 × 600 screen. -/
def cexInpStart : FrameInput := ⟨0, 800, 600, true, false, 0, 0, 0⟩

/-- Second counterexample frame: 10 ms of play after the window has been
resized to 800 × 800, i.e. the ground line moved down to 720. -/
def cexInpResize : FrameInput := ⟨1/100, 800, 800, false, false, 0, 0, 0⟩

/-- The state after the first counterexample frame: a fresh run on the
800 × 600 screen. -/
def cexMid : Game :=
  ⟨State.Playing, 0, 0, 0, 9/10, 30, [], some ⟨⟨160, 460⟩, ⟨0, 0⟩, true⟩⟩

/-- The player produced by those two frames: still flagged as grounded
though hanging in mid-air relative to the new ground line. -/
def cexPlayer : Player := ⟨⟨160, 23009/50⟩, ⟨0, 18⟩, true⟩

/-- The full game state produced by those two frames. -/
def cexGame : Game :=
  ⟨State.Playing, 94/3125, 0, 1/100, 9/10, 752/25, [], some cexPlayer⟩

/-- The overlap test unfolded to its four strict comparisons. -/
theorem Rect.overlaps_iff (a b : Rect) :
    a.overlaps b = true ↔
      a.x < b.x + b.w ∧ b.x < a.x + a.w ∧ a.y < b.y + b.h ∧ b.y < a.y + a.h := by
  simp [Rect.overlaps, and_assoc]

/-- A unit draw in `[0,1)` lands `genRange` in `[lo, hi)`. -/
theorem genRange_mem (lo hi u : ℚ) (hlh : lo < hi) (h0 : 0 ≤ u) (h1 : u < 1) :
    lo ≤ genRange lo hi u ∧ genRange lo hi u < hi := by
  unfold genRange
  constructor
  · nlinarith
  · nlinarith

/-- Full characterization of a successful `Playing` frame: the player it
stores, every scalar field of the next state, and the high-score /
state-transition behaviour depending on whether some updated obstacle
overlaps the updated player. -/
theorem playingStep_eq (g : Game) (inp : FrameInput) (g1 : Game)
    (h : playingStep g inp = some g1) :
    ∃ pl, g.player = some pl ∧
      g1.player = some (pl.update inp.dt (groundY inp.sh) inp.jump_pressed) ∧
      g1.speed = g.speedAfter inp.dt ∧
      g1.spawn_t = (g.spawnResult inp).2.1 ∧
      g1.next_spawn = (g.spawnResult inp).2.2 ∧
      g1.obstacles = ((g.spawnResult inp).1.map (fun o => o.update inp.dt)).filter
        (fun o => !o.offscreen) ∧
      g1.score = g.score + g.speedAfter inp.dt * inp.dt * (1/10) ∧
      (((g.spawnResult inp).1.map (fun o => o.update inp.dt)).any
          (fun o => o.rect.overlaps (pl.update inp.dt (groundY inp.sh) inp.jump_pressed).rect)
            = false →
        g1.state = g.state ∧ g1.hi_score = g.hi_score) ∧
      (((g.spawnResult inp).1.map (fun o => o.update inp.dt)).any
          (fun o => o.rect.overlaps (pl.update inp.dt (groundY inp.sh) inp.jump_pressed).rect)
            = true →
        g1.state = State.GameOver ∧
        g1.hi_score = if g1.score > g.hi_score then g1.score else g.hi_score) := by
  unfold playingStep at h
  cases hp : g.player with
  | none => rw [hp] at h; exact absurd h (by simp)
  | some pl =>
    rw [hp] at h
    refine ⟨pl, rfl, ?_⟩
    dsimp only at h
    split at h
    case isTrue halive =>
      injection h with h
      subst h
      refine ⟨rfl, rfl, rfl, rfl, rfl, rfl, fun _ => ⟨rfl, rfl⟩, fun hc => ?_⟩
      rw [hc] at halive
      exact absurd halive (by decide)
    case isFalse halive =>
      injection h with h
      subst h
      refine ⟨rfl, rfl, rfl, rfl, rfl, rfl, fun hc => ?_, fun _ => ⟨rfl, rfl⟩⟩
      rw [hc] at halive
      exact absurd halive (by decide)

/-- The menu branch never touches the high score. -/
theorem menuStep_hi (g : Game) (inp : FrameInput) :
    (menuStep g inp).hi_score = g.hi_score := by
  unfold menuStep
  split <;> rfl

/-- The game-over branch never touches the high score. -/
theorem gameOverStep_hi (g : Game) (inp : FrameInput) :
    (gameOverStep g inp).hi_score = g.hi_score := by
  unfold gameOverStep
  split
  · rfl
  · split <;> rfl

/-- One frame never lowers the high score. -/
theorem frameStep_hi_mono (g : Game) (inp : FrameInput) (g1 : Game)
    (h : frameStep g inp = some g1) : g.hi_score ≤ g1.hi_score := by
  unfold frameStep at h
  cases hs : g.state
  case Menu =>
    rw [hs] at h
    injection h with h
    subst h
    exact le_of_eq (menuStep_hi g inp).symm
  case GameOver =>
    rw [hs] at h
    injection h with h
    subst h
    exact le_of_eq (gameOverStep_hi g inp).symm
  case Playing =>
    rw [hs] at h
    obtain ⟨pl, hp, hpl, hsp, hst, hns, hobs, hsc, hok, hdead⟩ := playingStep_eq g inp g1 h
    cases hany : ((g.spawnResult inp).1.map (fun o => o.update inp.dt)).any
        (fun o => o.rect.overlaps (pl.update inp.dt (groundY inp.sh) inp.jump_pressed).rect)
    case false => exact le_of_eq (hok hany).2.symm
    case true =>
      rw [(hdead hany).2]
      split
      case isTrue hgt => exact le_of_lt hgt
      case isFalse => exact le_refl _

/-- A whole trace of frames never lowers the high score. -/
theorem runFrames_hi_mono (is : List FrameInput) (g g2 : Game)
    (h : runFrames g is = some g2) : g.hi_score ≤ g2.hi_score := by
  induction is generalizing g with
  | nil =>
    unfold runFrames at h
    injection h with h
    subst h
    exact le_refl _
  | cons i is ih =>
    unfold runFrames at h
    cases hf : frameStep g i with
    | none => rw [hf] at h; exact absurd h (by simp)
    | some g1 =>
      rw [hf] at h
      exact le_trans (frameStep_hi_mono g i g1 hf) (ih g1 h)

/-- C2: the rectangle-overlap test treats touching edges as
non-overlapping; rectangles whose projections merely touch or are
disjoint on either axis never report overlap, and two identical
rectangles with positive width and height always report overlap. -/
theorem C2_overlap_edges (a b : Rect) :
    ((a.x + a.w ≤ b.x ∨ b.x + b.w ≤ a.x ∨ a.y + a.h ≤ b.y ∨ b.y + b.h ≤ a.y) →
      a.overlaps b = false) ∧
    (0 < a.w → 0 < a.h → a.overlaps a = true) := by
  constructor
  · intro hsep
    rw [Bool.eq_false_iff]
    intro hc
    rw [Rect.overlaps_iff] at hc
    obtain ⟨h1, h2, h3, h4⟩ := hc
    rcases hsep with hs | hs | hs | hs <;> linarith
  · intro hw hh
    rw [Rect.overlaps_iff]
    exact ⟨by linarith, by linarith, by linarith, by linarith⟩

/-- Witness for C2 at concrete rectangles: a unit square touching
another unit square edge-to-edge does not overlap it, while it does
overlap itself. -/
theorem C2_witness :
    Rect.overlaps ⟨0, 0, 1, 1⟩ ⟨1, 0, 1, 1⟩ = false ∧
    Rect.overlaps ⟨0, 0, 1, 1⟩ ⟨0, 0, 1, 1⟩ = true :=
  ⟨(C2_overlap_edges ⟨0, 0, 1, 1⟩ ⟨1, 0, 1, 1⟩).1 (Or.inl (by norm_num)),
   (C2_overlap_edges ⟨0, 0, 1, 1⟩ ⟨0, 0, 1, 1⟩).2 (by norm_num) (by norm_num)⟩

/-- C9: `Obstacle::update` moves the obstacle left by exactly
`speed * dt`, leaving size, speed and vertical position unchanged;
`offscreen` holds exactly when the right edge has passed `-10`; a
`Playing` frame keeps exactly the updated obstacles that are not
off-screen; and the spec's concrete scenario (x = 1000, speed = 50,
dt = 1 s) lands at x = 950, not off-screen. -/
theorem C9_obstacle_motion (o : Obstacle) (dt : ℚ) :
    ((o.update dt).pos.x = o.pos.x - o.speed * dt ∧
     (o.update dt).pos.y = o.pos.y ∧
     (o.update dt).size = o.size ∧
     (o.update dt).speed = o.speed) ∧
    (o.offscreen = true ↔ o.pos.x + o.size.x < -10) ∧
    (∀ (g : Game) (inp : FrameInput) (g1 : Game), playingStep g inp = some g1 →
      g1.obstacles = ((g.spawnResult inp).1.map (fun ob => ob.update inp.dt)).filter
        (fun ob => !ob.offscreen)) ∧
    ((Obstacle.mk ⟨1000, 400⟩ ⟨50, 80⟩ 50).update 1).pos.x = 950 ∧
    ((Obstacle.mk ⟨1000, 400⟩ ⟨50, 80⟩ 50).update 1).offscreen = false := by
  refine ⟨⟨rfl, rfl, rfl, rfl⟩, ?_, ?_,
    by norm_num [Obstacle.update],
    by norm_num [Obstacle.update, Obstacle.offscreen]⟩
  · simp [Obstacle.offscreen]
  · intro g inp g1 h
    obtain ⟨pl, hp, hpl, hsp, hst, hns, hobs, _⟩ := playingStep_eq g inp g1 h
    exact hobs

/-- Witness for C9 at a concrete obstacle. -/
theorem C9_witness : ((Obstacle.mk ⟨0, 0⟩ ⟨5, 5⟩ 2).update 3).pos.x = -6 := by
  have h := C9_obstacle_motion (Obstacle.mk ⟨0, 0⟩ ⟨5, 5⟩ 2) 3
  rw [h.1.1]
  norm_num

/-- C6: each `Playing` tick sets the scroll speed to
`min (speed + SPEED_GROWTH * dt) MAX_SPEED` with growth 8 and cap 140,
so for `dt ≥ 0` the speed is non-decreasing and stays below the cap,
and a tick at speed 30 with dt = 1 s yields 38. -/
theorem C6_speed_ramp (g g1 : Game) (inp : FrameInput) (h : playingStep g inp = some g1)
    (hs : g.speed ≤ MAX_SPEED) (hdt : 0 ≤ inp.dt) :
    g1.speed = min (g.speed + SPEED_GROWTH * inp.dt) MAX_SPEED ∧
    g.speed ≤ g1.speed ∧ g1.speed ≤ MAX_SPEED ∧
    SPEED_GROWTH = 8 ∧ MAX_SPEED = 140 ∧
    (initGame 0).speedAfter 1 = 38 := by
  obtain ⟨pl, hp, hpl, hsp, _⟩ := playingStep_eq g inp g1 h
  have hval : g1.speed = min (g.speed + SPEED_GROWTH * inp.dt) MAX_SPEED := hsp
  have hgrow : (0:ℚ) ≤ SPEED_GROWTH * inp.dt :=
    mul_nonneg (by norm_num [SPEED_GROWTH]) hdt
  refine ⟨hval, ?_, ?_, rfl, rfl,
    by norm_num [Game.speedAfter, initGame, SPEED_GROWTH, MAX_SPEED, BASE_SPEED, min_def]⟩
  · rw [hval]
    exact le_min (by linarith) hs
  · rw [hval]
    exact min_le_right _ _

/-- Evaluation of the collision tick: one zero-length `Playing` frame
from `scenG` registers the overlap, raises the high score to 10 and
moves to `GameOver`. -/
theorem scen_tick_eval : playingStep scenG scenInpTick = some scenGOver := by
  norm_num [playingStep, scenG, scenGOver, scenInpTick, scenPlayer, scenObstacle,
    Player.update, Player.rect, Obstacle.update, Obstacle.rect, Obstacle.offscreen,
    Rect.overlaps, Game.speedAfter, Game.spawnResult, groundY, genRange,
    GRAVITY, JUMP_VEL, GROUND_H, PLAYER_W, PLAYER_H, BASE_SPEED, SPEED_GROWTH,
    MAX_SPEED, SPAWN_MIN, SPAWN_MAX, min_def]

/-- Evaluation of the M-key frame from `scenGOver`. -/
theorem scen_menu_eval : frameStep scenGOver scenInpMenu = some scenGMenu := by
  norm_num [frameStep, gameOverStep, scenGOver, scenGMenu, scenInpMenu]

/-- Evaluation of the restart frame from `scenGMenu`. -/
theorem scen_restart_eval : frameStep scenGMenu scenInpJump = some scenGRestart := by
  norm_num [frameStep, menuStep, scenGMenu, scenGRestart, scenInpJump, scenPlayer,
    Player.new, groundY, genRange, GROUND_H, PLAYER_H, BASE_SPEED, SPAWN_MIN, SPAWN_MAX]

/-- Witness for C6: the concrete collision tick from `scenG` keeps the
speed below the cap, and the 30 → 38 scenario. -/
theorem C6_witness : scenGOver.speed ≤ MAX_SPEED ∧ (initGame 0).speedAfter 1 = 38 := by
  have h := C6_speed_ramp scenG scenGOver scenInpTick scen_tick_eval
    (by norm_num [scenG, MAX_SPEED]) (by norm_num [scenInpTick])
  exact ⟨h.2.2.1, h.2.2.2.2.2⟩

/-- C3: the Menu → Playing and GameOver → Playing transitions perform
the identical reset: score 0, speed `BASE_SPEED` = 30, no obstacles,
spawn timer 0, a fresh `next_spawn` drawn from the full
`[SPAWN_MIN, SPAWN_MAX]` range, a new player at 20 % of the screen
width with feet on the ground line; the high score is untouched. -/
theorem C3_reset_identical (g : Game) (inp : FrameInput) (hj : inp.jump_pressed = true)
    (hm : inp.m_pressed = false) (h0 : 0 ≤ inp.uSpawn) (h1 : inp.uSpawn < 1) :
    menuStep g inp = gameOverStep g inp ∧
    (menuStep g inp).score = 0 ∧
    (menuStep g inp).speed = BASE_SPEED ∧ BASE_SPEED = 30 ∧
    (menuStep g inp).obstacles = [] ∧
    (menuStep g inp).spawn_t = 0 ∧
    (menuStep g inp).next_spawn = genRange SPAWN_MIN SPAWN_MAX inp.uSpawn ∧
    SPAWN_MIN ≤ (menuStep g inp).next_spawn ∧ (menuStep g inp).next_spawn < SPAWN_MAX ∧
    (menuStep g inp).player = some (Player.new inp.sw (groundY inp.sh)) ∧
    (Player.new inp.sw (groundY inp.sh)).pos.x = inp.sw * (2/10) ∧
    (Player.new inp.sw (groundY inp.sh)).pos.y + PLAYER_H = groundY inp.sh ∧
    (menuStep g inp).hi_score = g.hi_score ∧
    (gameOverStep g inp).hi_score = g.hi_score ∧
    (menuStep g inp).state = State.Playing := by
  have hg := genRange_mem SPAWN_MIN SPAWN_MAX inp.uSpawn
    (by norm_num [SPAWN_MIN, SPAWN_MAX]) h0 h1
  have hmenu : menuStep g inp =
      { g with
        score := 0
        speed := BASE_SPEED
        obstacles := []
        spawn_t := 0
        next_spawn := genRange SPAWN_MIN SPAWN_MAX inp.uSpawn
        player := some (Player.new inp.sw (groundY inp.sh))
        state := State.Playing } := by
    simp [menuStep, hj]
  have hover : gameOverStep g inp =
      { g with
        score := 0
        speed := BASE_SPEED
        obstacles := []
        spawn_t := 0
        next_spawn := genRange SPAWN_MIN SPAWN_MAX inp.uSpawn
        player := some (Player.new inp.sw (groundY inp.sh))
        state := State.Playing } := by
    simp [gameOverStep, hj, hm]
  rw [hmenu, hover]
  refine ⟨rfl, rfl, rfl, rfl, rfl, rfl, rfl, hg.1, hg.2, rfl, rfl, ?_, rfl, rfl, rfl⟩
  simp [Player.new]

/-- Witness for C3 at the concrete menu state `scenGMenu` with a jump
signal. -/
theorem C3_witness :
    menuStep scenGMenu scenInpJump = gameOverStep scenGMenu scenInpJump ∧
    (menuStep scenGMenu scenInpJump).score = 0 := by
  have h := C3_reset_identical scenGMenu scenInpJump rfl rfl
    (by norm_num [scenInpJump]) (by norm_num [scenInpJump])
  exact ⟨h.1, h.2.1⟩

/-- C10: in the GameOver state, when the M key and the jump signal are
both raised in the same frame, the M key wins: the game returns to the
menu with no data reset, and no restart into Playing happens. -/
theorem C10_menu_over_restart (g : Game) (inp : FrameInput) (hgo : g.state = State.GameOver)
    (hm : inp.m_pressed = true) (hj : inp.jump_pressed = true) :
    frameStep g inp = some { g with state := State.Menu } ∧
    State.Menu ≠ State.Playing := by
  refine ⟨?_, by decide⟩
  unfold frameStep
  rw [hgo]
  dsimp only
  simp [gameOverStep, hm]

/-- Witness for C10 at the concrete game-over state `scenGOver` with
both signals raised. -/
theorem C10_witness : frameStep scenGOver scenInpBoth = some scenGMenu := by
  have h := (C10_menu_over_restart scenGOver scenInpBoth rfl rfl rfl).1
  rw [h]
  simp [scenGOver, scenGMenu]

/-- C4: the high score never decreases across any frame or trace of
frames; it is unchanged except on the tick a run ends, where it becomes
`max hiScore score`; and in the concrete 10-versus-5 scenario a
collision raises it to 10, after which a restart zeroes the score but
keeps the high score at 10. -/
theorem C4_hi_score_update (g g1 : Game) (inp : FrameInput) (h : frameStep g inp = some g1) :
    g.hi_score ≤ g1.hi_score ∧
    (g.state ≠ State.Playing → g1.hi_score = g.hi_score) ∧
    (g.state = State.Playing → g1.state = State.Playing → g1.hi_score = g.hi_score) ∧
    (g.state = State.Playing → g1.state = State.GameOver →
      g1.hi_score = max g.hi_score g1.score) ∧
    (g.state = State.Playing → g1.state = State.Playing ∨ g1.state = State.GameOver) ∧
    (∀ is g2, runFrames g is = some g2 → g.hi_score ≤ g2.hi_score) ∧
    (frameStep scenG scenInpTick = some scenGOver ∧ scenG.score = 10 ∧ scenG.hi_score = 5 ∧
      scenGOver.hi_score = 10 ∧ frameStep scenGOver scenInpMenu = some scenGMenu ∧
      frameStep scenGMenu scenInpJump = some scenGRestart ∧
      scenGRestart.score = 0 ∧ scenGRestart.hi_score = 10) := by
  refine ⟨frameStep_hi_mono g inp g1 h, ?_, ?_, ?_, ?_,
    fun is g2 hh => runFrames_hi_mono is g g2 hh,
    scen_tick_eval, rfl, rfl, rfl, scen_menu_eval, scen_restart_eval, rfl, rfl⟩
  · intro hnp
    unfold frameStep at h
    cases hs : g.state
    case Menu =>
      rw [hs] at h
      injection h with h
      subst h
      exact menuStep_hi g inp
    case Playing => exact absurd hs hnp
    case GameOver =>
      rw [hs] at h
      injection h with h
      subst h
      exact gameOverStep_hi g inp
  · intro hp1 hp2
    unfold frameStep at h
    rw [hp1] at h
    obtain ⟨pl, hpp, hpl, hsp, hst, hns, hobs, hsc, hok, hdead⟩ := playingStep_eq g inp g1 h
    cases hany : ((g.spawnResult inp).1.map (fun o => o.update inp.dt)).any
        (fun o => o.rect.overlaps (pl.update inp.dt (groundY inp.sh) inp.jump_pressed).rect)
    case false => exact (hok hany).2
    case true =>
      rw [(hdead hany).1] at hp2
      simp at hp2
  · intro hp1 hgo
    unfold frameStep at h
    rw [hp1] at h
    obtain ⟨pl, hpp, hpl, hsp, hst, hns, hobs, hsc, hok, hdead⟩ := playingStep_eq g inp g1 h
    cases hany : ((g.spawnResult inp).1.map (fun o => o.update inp.dt)).any
        (fun o => o.rect.overlaps (pl.update inp.dt (groundY inp.sh) inp.jump_pressed).rect)
    case false =>
      rw [(hok hany).1, hp1] at hgo
      simp at hgo
    case true =>
      rw [(hdead hany).2]
      rcases le_or_lt g1.score g.hi_score with hle | hlt
      · rw [if_neg (not_lt.mpr hle), max_eq_left hle]
      · rw [if_pos hlt, max_eq_right (le_of_lt hlt)]
  · intro hp1
    unfold frameStep at h
    rw [hp1] at h
    obtain ⟨pl, hpp, hpl, hsp, hst, hns, hobs, hsc, hok, hdead⟩ := playingStep_eq g inp g1 h
    cases hany : ((g.spawnResult inp).1.map (fun o => o.update inp.dt)).any
        (fun o => o.rect.overlaps (pl.update inp.dt (groundY inp.sh) inp.jump_pressed).rect)
    case false =>
      left
      rw [(hok hany).1, hp1]
    case true =>
      right
      exact (hdead hany).1

/-- Witness for C4 at the concrete collision tick. -/
theorem C4_witness :
    scenG.hi_score ≤ scenGOver.hi_score ∧
    scenGOver.hi_score = max scenG.hi_score scenGOver.score := by
  have h := C4_hi_score_update scenG scenGOver scenInpTick scen_tick_eval
  exact ⟨h.1, h.2.2.2.1 rfl rfl⟩

/-- C5: within one `Playing` tick the collision test covers every live
obstacle after its movement update and before any off-screen eviction,
so any single overlap with the player's collision rect sends the run to
`GameOver` — even for an obstacle that leaves the screen this tick. -/
theorem C5_collision_before_eviction (g : Game) (inp : FrameInput) (g1 : Game) (pl : Player)
    (hp : g.player = some pl) (h : playingStep g inp = some g1) (o : Obstacle)
    (ho : o ∈ (g.spawnResult inp).1.map (fun ob => ob.update inp.dt))
    (hov : o.rect.overlaps ((pl.update inp.dt (groundY inp.sh) inp.jump_pressed).rect) = true) :
    g1.state = State.GameOver := by
  obtain ⟨pl2, hp2, hpl, hsp, hst, hns, hobs, hsc, hok, hdead⟩ := playingStep_eq g inp g1 h
  rw [hp] at hp2
  injection hp2 with hp2
  subst hp2
  exact (hdead (List.any_eq_true.mpr ⟨o, ho, hov⟩)).1

/-- Witness for C5: the overlapping obstacle of `scenG` ends the run. -/
theorem C5_witness : scenGOver.state = State.GameOver := by
  refine C5_collision_before_eviction scenG scenInpTick scenGOver scenPlayer rfl
    scen_tick_eval (scenObstacle.update 0) ?_ ?_
  · norm_num [scenG, scenInpTick, Game.spawnResult]
  · norm_num [scenObstacle, scenPlayer, scenInpTick, Obstacle.update, Obstacle.rect,
      Player.update, Player.rect, Rect.overlaps, groundY, GROUND_H, GRAVITY, JUMP_VEL,
      PLAYER_H, PLAYER_W]

/-- C8: advancing the spawn timer by `dt`, a spawn happens exactly when
it reaches `next_spawn`: exactly one obstacle is appended, placed at
`screenWidth + 40`, carrying the tick's current scroll speed, with
width in `[40, 70)`, height in `[50, 120)` and bottom edge on the
ground line; the timer resets to 0 and the next interval is drawn from
`[max SPAWN_MIN 0.5, SPAWN_MAX] = [0.9, 1.8)`.  Otherwise nothing
spawns and the timer keeps its advanced value. -/
theorem C8_spawn_behaviour (g : Game) (inp : FrameInput)
    (hW0 : 0 ≤ inp.uW) (hW1 : inp.uW < 1) (hH0 : 0 ≤ inp.uH) (hH1 : inp.uH < 1)
    (hS0 : 0 ≤ inp.uSpawn) (hS1 : inp.uSpawn < 1) :
    (g.spawn_t + inp.dt ≥ g.next_spawn →
      (g.spawnResult inp).1 = g.obstacles ++
        [Obstacle.new (inp.sw + 40) (groundY inp.sh) (g.speedAfter inp.dt) inp.uW inp.uH] ∧
      (g.spawnResult inp).2.1 = 0 ∧
      (g.spawnResult inp).2.2 = genRange (max SPAWN_MIN (1/2)) SPAWN_MAX inp.uSpawn ∧
      max SPAWN_MIN (1/2) = SPAWN_MIN ∧
      SPAWN_MIN ≤ (g.spawnResult inp).2.2 ∧ (g.spawnResult inp).2.2 < SPAWN_MAX) ∧
    (¬(g.spawn_t + inp.dt ≥ g.next_spawn) →
      (g.spawnResult inp).1 = g.obstacles ∧
      (g.spawnResult inp).2.1 = g.spawn_t + inp.dt ∧
      (g.spawnResult inp).2.2 = g.next_spawn) ∧
    (∃ ob, ob = Obstacle.new (inp.sw + 40) (groundY inp.sh) (g.speedAfter inp.dt) inp.uW inp.uH ∧
      ob.pos.x = inp.sw + 40 ∧ ob.speed = g.speedAfter inp.dt ∧
      40 ≤ ob.size.x ∧ ob.size.x < 70 ∧ 50 ≤ ob.size.y ∧ ob.size.y < 120 ∧
      ob.pos.y + ob.size.y = groundY inp.sh) ∧
    (∀ g1, playingStep g inp = some g1 →
      g1.spawn_t = (g.spawnResult inp).2.1 ∧ g1.next_spawn = (g.spawnResult inp).2.2 ∧
      g1.obstacles = ((g.spawnResult inp).1.map (fun o => o.update inp.dt)).filter
        (fun o => !o.offscreen)) := by
  have hw := genRange_mem 40 70 inp.uW (by norm_num) hW0 hW1
  have hh := genRange_mem 50 120 inp.uH (by norm_num) hH0 hH1
  have hmax : max SPAWN_MIN (1/2) = SPAWN_MIN := by
    rw [max_eq_left]
    norm_num [SPAWN_MIN]
  have hs := genRange_mem SPAWN_MIN SPAWN_MAX inp.uSpawn
    (by norm_num [SPAWN_MIN, SPAWN_MAX]) hS0 hS1
  refine ⟨?_, ?_, ?_, ?_⟩
  · intro hcond
    unfold Game.spawnResult
    dsimp only
    rw [if_pos hcond]
    refine ⟨rfl, rfl, rfl, hmax, ?_, ?_⟩
    · show SPAWN_MIN ≤ genRange (max SPAWN_MIN (1/2)) SPAWN_MAX inp.uSpawn
      rw [hmax]
      exact hs.1
    · show genRange (max SPAWN_MIN (1/2)) SPAWN_MAX inp.uSpawn < SPAWN_MAX
      rw [hmax]
      exact hs.2
  · intro hcond
    unfold Game.spawnResult
    dsimp only
    rw [if_neg hcond]
    exact ⟨rfl, rfl, rfl⟩
  · refine ⟨Obstacle.new (inp.sw + 40) (groundY inp.sh) (g.speedAfter inp.dt) inp.uW inp.uH,
      rfl, rfl, rfl, hw.1, hw.2, hh.1, hh.2, ?_⟩
    show groundY inp.sh - genRange 50 120 inp.uH + genRange 50 120 inp.uH = groundY inp.sh
    ring
  · intro g1 hstep
    obtain ⟨pl, hp, hpl, hsp, hst, hns, hobs, _⟩ := playingStep_eq g inp g1 hstep
    exact ⟨hst, hns, hobs⟩

/-- Witness for C8: from `scenG` a zero-length tick does not reach the
spawn interval, so nothing spawns; and the spawned obstacle of that
frame's parameters would have width at least 40. -/
theorem C8_witness :
    (scenG.spawnResult scenInpTick).1 = [scenObstacle] ∧
    40 ≤ (Obstacle.new (scenInpTick.sw + 40) (groundY scenInpTick.sh)
      (scenG.speedAfter scenInpTick.dt) scenInpTick.uW scenInpTick.uH).size.x := by
  have h := C8_spawn_behaviour scenG scenInpTick (by norm_num [scenInpTick])
    (by norm_num [scenInpTick]) (by norm_num [scenInpTick]) (by norm_num [scenInpTick])
    (by norm_num [scenInpTick]) (by norm_num [scenInpTick])
  refine ⟨(h.2.1 ?_).1, ?_⟩
  · norm_num [scenG, scenInpTick]
  · obtain ⟨ob, hob, hx, hsp, hlo, _⟩ := h.2.2.1
    subst hob
    exact hlo

/-- C7: `Player::update` gives the jump velocity and clears the
grounded flag exactly when the jump is requested while grounded, then
applies gravity and integrates the position (stated away from the
ground clamp, which is C1's concern); the concrete jump scenario
(dt = 0.1 s, grounded, velocity 0) yields velocity -620 and leaves the
ground. -/
theorem C7_jump_and_gravity (p : Player) (dt gy : ℚ) (j : Bool)
    (hnc : p.pos.y + ((if j && p.on_ground then JUMP_VEL else p.vel.y) + GRAVITY * dt) * dt
        + PLAYER_H < gy) :
    (p.update dt gy j).vel.y = (if j && p.on_ground then JUMP_VEL else p.vel.y) + GRAVITY * dt ∧
    (p.update dt gy j).pos.y = p.pos.y + (p.update dt gy j).vel.y * dt ∧
    (p.update dt gy j).on_ground = (p.on_ground && !j) ∧
    JUMP_VEL = -800 ∧ GRAVITY = 1800 ∧
    ((Player.new 800 520).update (1/10) 520 true).vel.y = -620 ∧
    ((Player.new 800 520).update (1/10) 520 true).on_ground = false := by
  have scen : ((Player.new 800 520).update (1/10) 520 true).vel.y = -620 ∧
      ((Player.new 800 520).update (1/10) 520 true).on_ground = false := by
    norm_num [Player.update, Player.new, JUMP_VEL, GRAVITY, PLAYER_H]
  have key : p.update dt gy j =
      ⟨⟨p.pos.x, p.pos.y + ((if j && p.on_ground then JUMP_VEL else p.vel.y) + GRAVITY * dt) * dt⟩,
       ⟨p.vel.x, (if j && p.on_ground then JUMP_VEL else p.vel.y) + GRAVITY * dt⟩,
       p.on_ground && !j⟩ := by
    unfold Player.update
    dsimp only
    split_ifs with h1 h2 h3
    · exfalso
      rw [if_pos h1] at hnc
      dsimp only at h2
      linarith
    · rw [Bool.and_eq_true] at h1
      obtain ⟨hj, hog⟩ := h1
      subst hj
      dsimp only
      rw [hog]
      rfl
    · exfalso
      rw [if_neg h1] at hnc
      linarith
    · cases j with
      | false => simp
      | true =>
        simp only [Bool.true_and, Bool.not_eq_true] at h1
        rw [h1]
        rfl
  rw [key]
  exact ⟨rfl, rfl, rfl, rfl, rfl, scen.1, scen.2⟩

/-- Witness for C7 at the concrete jump scenario. -/
theorem C7_witness : ((Player.new 800 520).update (1/10) 520 true).vel.y = -620 := by
  have h := C7_jump_and_gravity (Player.new 800 520) (1/10) 520 true
    (by norm_num [Player.new, JUMP_VEL, GRAVITY, PLAYER_H])
  exact h.2.2.2.2.2.1

/-- C1 as amended: for `dt ≥ 0`, on any player state whose grounded
flag is consistent with the current ground line (`PlayerGroundInv` —
established by `Player::new` and preserved by every update while the
ground line is unchanged), the update never lets the player penetrate
the ground, and with non-negative vertical velocity the grounded flag
holds exactly when the feet are on the ground line. -/
theorem C1_ground_invariant (p : Player) (dt gy : ℚ) (j : Bool) (hdt : 0 ≤ dt)
    (hinv : PlayerGroundInv p gy) :
    (p.update dt gy j).pos.y + PLAYER_H ≤ gy ∧
    (0 ≤ (p.update dt gy j).vel.y →
      ((p.update dt gy j).on_ground = true ↔ (p.update dt gy j).pos.y + PLAYER_H = gy)) ∧
    PlayerGroundInv (p.update dt gy j) gy ∧
    (∀ sw, PlayerGroundInv (Player.new sw gy) gy) := by
  have hnew : ∀ sw, PlayerGroundInv (Player.new sw gy) gy := by
    intro sw hog
    exact ⟨by simp [Player.new], rfl⟩
  refine ⟨?_, ?_, ?_, hnew⟩
  · unfold Player.update
    dsimp only
    split_ifs with h1 h2 h3
    · dsimp only
      linarith
    · dsimp only at h2 ⊢
      push_neg at h2
      linarith
    · dsimp only
      linarith
    · dsimp only at h3 ⊢
      push_neg at h3
      linarith
  · intro hv
    unfold Player.update at hv ⊢
    dsimp only at hv ⊢
    split_ifs at hv ⊢ with h1 h2 h3
    · simp
    · dsimp only at h2 ⊢
      push_neg at h2
      refine iff_of_false (by simp) ?_
      intro heq
      linarith
    · simp
    · dsimp only at h3 hv ⊢
      push_neg at h3
      refine iff_of_false ?_ ?_
      · intro hog
        obtain ⟨hy, hvel⟩ := hinv hog
        rw [hvel] at h3
        have hG : (0:ℚ) ≤ GRAVITY * (dt * dt) :=
          mul_nonneg (by norm_num [GRAVITY]) (mul_self_nonneg dt)
        nlinarith [hy, h3, hG]
      · intro heq
        linarith
  · unfold PlayerGroundInv Player.update
    dsimp only
    split_ifs with h1 h2 h3
    · intro hog
      refine ⟨?_, rfl⟩
      show gy - PLAYER_H + PLAYER_H = gy
      ring
    · intro hog
      exact hog.elim
    · intro hog
      refine ⟨?_, rfl⟩
      show gy - PLAYER_H + PLAYER_H = gy
      ring
    · intro hog
      exfalso
      obtain ⟨hy, hvel⟩ := hinv hog
      push_neg at h3
      rw [hvel] at h3
      have hG : (0:ℚ) ≤ GRAVITY * (dt * dt) :=
        mul_nonneg (by norm_num [GRAVITY]) (mul_self_nonneg dt)
      nlinarith [hy, h3, hG]

/-- Witness for C1's amended theorem: a freshly created player on a
520 ground line stays above the ground after a 0.1 s update. -/
theorem C1_witness : ((Player.new 800 520).update (1/10) 520 false).pos.y + PLAYER_H ≤ 520 := by
  have h := C1_ground_invariant (Player.new 800 520) (1/10) 520 false (by norm_num)
    (fun hog => ⟨by norm_num [Player.new, PLAYER_H], rfl⟩)
  exact h.1

/-- Counterexample to C1 as stated: after starting a run on an
800 × 600 screen and then playing one 10 ms frame on a resized
800 × 800 screen (`ground_y` moved from 520 to 720), the program calls
`Player::update` with `dt = 1/100 ≥ 0` and ends up with non-negative
vertical velocity and the grounded flag still set although the feet
are not on the ground line — the claimed biconditional fails. -/
theorem C1_counterexample :
    runFrames (initGame 0) [cexInpStart, cexInpResize] = some cexGame ∧
    cexGame.player = some cexPlayer ∧
    cexInpResize.dt ≥ 0 ∧
    0 ≤ cexPlayer.vel.y ∧
    cexPlayer.on_ground = true ∧
    cexPlayer.pos.y + PLAYER_H ≠ groundY cexInpResize.sh := by
  have h1 : frameStep (initGame 0) cexInpStart = some cexMid := by
    norm_num [frameStep, menuStep, initGame, cexInpStart, cexMid, Player.new, groundY,
      genRange, GROUND_H, PLAYER_H, BASE_SPEED, SPAWN_MIN, SPAWN_MAX]
  have h2 : frameStep cexMid cexInpResize = some cexGame := by
    norm_num [frameStep, playingStep, cexMid, cexInpResize, cexGame, cexPlayer,
      Player.update, Player.rect, Game.speedAfter, Game.spawnResult, Obstacle.update,
      Obstacle.offscreen, Rect.overlaps, groundY, genRange, GRAVITY, JUMP_VEL, GROUND_H,
      PLAYER_H, PLAYER_W, BASE_SPEED, SPEED_GROWTH, MAX_SPEED, SPAWN_MIN, SPAWN_MAX, min_def]
  refine ⟨?_, rfl, by norm_num [cexInpResize], by norm_num [cexPlayer], rfl,
    by norm_num [cexPlayer, PLAYER_H, groundY, cexInpResize, GROUND_H]⟩
  simp only [runFrames, h1, h2]

end LadybugRunner
